import Mathlib

/-
Verification of the Flask blog application (main.py / forms.py) against its
natural-language specification.  The request handlers are shallowly embedded:
the relational store is a record of three row lists, a request is a pure
function from (store, session, parsed form data) to a result carrying the
updated store, the updated session, and either a response or a raised error.
-/

namespace Blog

/-- Modelled from the spec: the Password Hasher collaborator (the hashing
library is not part of this repository; only its call sites are).  The spec
contract is a salted one-way digest together with a verifier.  One-way-ness is
abstracted by sealing the plaintext inside a wrapper type distinct from
String, which only the verifier inspects. -/
structure HashString where
  salt : Nat
  digest : String
deriving DecidableEq, Repr

/-- Modelled from the spec: hash(plaintext) returns a salted digest. -/
def generate_password_hash (salt : Nat) (p : String) : HashString :=
  { salt := salt, digest := p }

/-- Modelled from the spec: verify(hash_string, plaintext) returns a Bool. -/
def check_password_hash (h : HashString) (p : String) : Bool :=
  h.digest == p

/-- Row of the users table (main.py, class User). -/
structure User where
  id : Nat
  email : String
  password : HashString
  name : String
deriving DecidableEq, Repr

/-- Row of the blog_posts table (main.py, class BlogPost). -/
structure BlogPost where
  id : Nat
  author_id : Nat
  title : String
  subtitle : String
  date : String
  body : String
  img_url : String
deriving DecidableEq, Repr

/-- Row of the comments table (main.py, class Comment). -/
structure Comment where
  id : Nat
  author_id : Nat
  post_id : Nat
  text : String
deriving DecidableEq, Repr

/-- The relational store: the three tables.  Uniqueness constraints declared
in the schema (users.email, blog_posts.title) are enforced at commit time by
the handlers below, mirroring the IntegrityError the engine raises; the
foreign keys on comments are declared but not enforced by the engine
configuration the code uses, matching the store contract in the spec (commit
fails only on uniqueness violations). -/
structure DB where
  users : List User
  posts : List BlogPost
  comments : List Comment
deriving DecidableEq, Repr

/-- Errors a handler can raise out of the request (uncaught exceptions). -/
inductive HError where
  | noResultFound
  | integrityError
  | smtpError
deriving DecidableEq, Repr

/-- Responses a handler can return. -/
inductive Response where
  | render (template : String)
  | renderMsg (template : String) (h1 : String)
  | redirect (endpoint : String) (flash : Option String)
  | forbidden
  | noneResponse
deriving DecidableEq, Repr

/-- Either a returned response or a raised error. -/
inductive Outcome where
  | ok (r : Response)
  | err (e : HError)
deriving DecidableEq, Repr

/-- Result of handling one request: updated store, updated session
(the current user id carried by the signed cookie), and the outcome. -/
structure HResult where
  db : DB
  session : Option Nat
  resp : Outcome
deriving DecidableEq, Repr

/-- select(User).filter_by(id=i) with scalar_one, as an Option. -/
def find_user_by_id (db : DB) (i : Nat) : Option User :=
  db.users.find? (fun u => u.id == i)

/-- select(User).filter_by(email=e) with scalar_one, as an Option. -/
def find_user_by_email (db : DB) (e : String) : Option User :=
  db.users.find? (fun u => u.email == e)

/-- select(BlogPost).filter_by(id=i) with scalar_one, as an Option. -/
def find_post (db : DB) (i : Nat) : Option BlogPost :=
  db.posts.find? (fun p => p.id == i)

/-- load_user (main.py line 86): resolve a session id to a User, None when
the lookup raises NoResultFound. -/
def load_user (db : DB) (i : Nat) : Option User :=
  find_user_by_id db i

/-- current_user: the session id resolved through load_user; none means the
anonymous identity. -/
def current_user (db : DB) (session : Option Nat) : Option User :=
  session.bind (load_user db)

/-- Autoincrement primary key for a users insert. -/
def next_user_id (db : DB) : Nat :=
  db.users.foldr (fun u m => max u.id m) 0 + 1

/-- Autoincrement primary key for a blog_posts insert. -/
def next_post_id (db : DB) : Nat :=
  db.posts.foldr (fun p m => max p.id m) 0 + 1

/-- Autoincrement primary key for a comments insert. -/
def next_comment_id (db : DB) : Nat :=
  db.comments.foldr (fun c m => max c.id m) 0 + 1

/-- Email shape check of the form validator (forms.py, Email()). -/
def looks_like_email (s : String) : Bool :=
  s.data.contains '@'

/-- URL shape check of the form validator (forms.py, URL()). -/
def looks_like_url (s : String) : Bool :=
  "http".data.isPrefixOf s.data

/-- RegisterForm (forms.py): email, password, name. -/
structure RegisterForm where
  email : String
  password : String
  name : String
deriving DecidableEq, Repr

/-- RegisterForm validation: DataRequired on all fields, Email() on email,
Length(min=8) on password. -/
def RegisterForm.validate (f : RegisterForm) : Bool :=
  f.email != "" && looks_like_email f.email &&
    decide (8 ≤ f.password.length) && f.name != ""

/-- LoginForm (forms.py): email, password. -/
structure LoginForm where
  email : String
  password : String
deriving DecidableEq, Repr

/-- LoginForm validation: DataRequired, Email() on email, Length(min=8) on
password. -/
def LoginForm.validate (f : LoginForm) : Bool :=
  f.email != "" && looks_like_email f.email && decide (8 ≤ f.password.length)

/-- CommentForm (forms.py): one rich-text field. -/
structure CommentForm where
  comment : String
deriving DecidableEq, Repr

/-- CommentForm validation: DataRequired on the comment field. -/
def CommentForm.validate (f : CommentForm) : Bool :=
  f.comment != ""

/-- CreatePostForm (forms.py): title, subtitle, img_url, body. -/
structure CreatePostForm where
  title : String
  subtitle : String
  img_url : String
  body : String
deriving DecidableEq, Repr

/-- CreatePostForm validation: DataRequired on all fields, URL() on
img_url. -/
def CreatePostForm.validate (f : CreatePostForm) : Bool :=
  f.title != "" && f.subtitle != "" && f.img_url != "" &&
    looks_like_url f.img_url && f.body != ""

/-- CreateContactForm (forms.py): name, email, phone, message. -/
structure ContactForm where
  name : String
  email : String
  phone : String
  message : String
deriving DecidableEq, Repr

/-- CreateContactForm validation: DataRequired on all fields, Email() on
email. -/
def ContactForm.validate (f : ContactForm) : Bool :=
  f.name != "" && f.email != "" && looks_like_email f.email &&
    f.phone != "" && f.message != ""

/-- admin_only decorator (main.py lines 71-82): if current_user.id equals 1
run the wrapped handler and return its result unchanged, otherwise abort with
403; the anonymous identity has no id attribute, and the resulting
AttributeError is caught and also turned into the same 403. -/
def admin_only {α β : Type} (handler : α → β) (forbidden : β)
    (cu : Option User) (a : α) : β :=
  match cu with
  | some u => if u.id == 1 then handler a else forbidden
  | none => forbidden

/-- The request result abort(403) produces: store and session untouched,
forbidden response. -/
def forbiddenResult (db : DB) (session : Option Nat) : HResult :=
  { db := db, session := session, resp := .ok .forbidden }

/-- register handler (main.py lines 99-119).  On a validated submission the
password is hashed and a User row committed; a duplicate email makes the
commit raise IntegrityError, which is caught: flash the taken-email message
and redirect back to register, persisting nothing.  On success the new user
is logged in and redirected to the listing. -/
def register (salt : Nat) (db : DB) (session : Option Nat)
    (form : Option RegisterForm) : HResult :=
  match form with
  | some f =>
    if f.validate then
      let pw := generate_password_hash salt f.password
      let nu : User :=
        { id := next_user_id db, email := f.email, password := pw,
          name := f.name }
      if db.users.any (fun u => u.email == f.email) then
        { db := db, session := session,
          resp := .ok (.redirect "register" (some "The Email you have entered has been taken, try to use a different Email!")) }
      else
        { db := { db with users := db.users ++ [nu] }, session := some nu.id,
          resp := .ok (.redirect "get_all_posts" none) }
    else
      { db := db, session := session, resp := .ok (.render "register.html") }
  | none =>
    { db := db, session := session, resp := .ok (.render "register.html") }

/-- login handler (main.py lines 122-143).  Lookup by email: NoResultFound is
caught into the wrong-email flash; a found user has the submitted password
verified against the stored hash, logging in on a match and flashing the
wrong-password message otherwise. -/
def login (db : DB) (session : Option Nat) (form : Option LoginForm) :
    HResult :=
  match form with
  | some f =>
    if f.validate then
      match find_user_by_email db f.email with
      | none =>
        { db := db, session := session,
          resp := .ok (.redirect "login" (some "Sorry, Wrong Email, Try to use a different Email!")) }
      | some u =>
        if check_password_hash u.password f.password then
          { db := db, session := some u.id,
            resp := .ok (.redirect "get_all_posts" none) }
        else
          { db := db, session := session,
            resp := .ok (.redirect "login" (some "Sorry, Wrong Password, Try to use a different Password!")) }
    else
      { db := db, session := session, resp := .ok (.render "login.html") }
  | none =>
    { db := db, session := session, resp := .ok (.render "login.html") }

/-- show_post handler (main.py lines 152-167).  On a validated comment
submission by an authenticated user a Comment row bound to the URL post id is
committed first; an anonymous submitter is flashed and redirected to login
with no write.  Afterwards (in every non-redirected path) the post is fetched
with scalar_one, raising NoResultFound when absent - note the comment commit
happens before this fetch. -/
def show_post (db : DB) (session : Option Nat) (post_id : Nat)
    (form : Option CommentForm) : HResult :=
  match form with
  | some f =>
    if f.validate then
      match current_user db session with
      | some u =>
        let nc : Comment :=
          { id := next_comment_id db, author_id := u.id, post_id := post_id,
            text := f.comment }
        let db' := { db with comments := db.comments ++ [nc] }
        match find_post db' post_id with
        | some _ =>
          { db := db', session := session, resp := .ok (.render "post.html") }
        | none =>
          { db := db', session := session, resp := .err .noResultFound }
      | none =>
        { db := db, session := session,
          resp := .ok (.redirect "login" (some "Please Login or Register to Submit your Comment!")) }
    else
      match find_post db post_id with
      | some _ =>
        { db := db, session := session, resp := .ok (.render "post.html") }
      | none =>
        { db := db, session := session, resp := .err .noResultFound }
  | none =>
    match find_post db post_id with
    | some _ =>
      { db := db, session := session, resp := .ok (.render "post.html") }
    | none =>
      { db := db, session := session, resp := .err .noResultFound }

/-- Outcome of the outbound-mail exchange in the contact handler. -/
inductive MailOutcome where
  | sent
  | authFailure
  | otherFailure
deriving DecidableEq, Repr

/-- contact handler (main.py lines 175-198).  On a validated submission the
message is handed to the mail collaborator inside a try that catches only
SMTPAuthenticationError, returning the success page; any other failure
propagates.  When the send completes without raising, control falls off the
end of the if-branch and the function returns None.  Without a validated
submission the plain contact page is returned. -/
def contact (db : DB) (session : Option Nat) (form : Option ContactForm)
    (mail : MailOutcome) : HResult :=
  match form with
  | some f =>
    if f.validate then
      match mail with
      | .authFailure =>
        { db := db, session := session,
          resp := .ok (.renderMsg "contact.html" "Successfully Send Your Message") }
      | .otherFailure =>
        { db := db, session := session, resp := .err .smtpError }
      | .sent =>
        { db := db, session := session, resp := .ok .noneResponse }
    else
      { db := db, session := session,
        resp := .ok (.renderMsg "contact.html" "Contact Me") }
  | none =>
    { db := db, session := session,
      resp := .ok (.renderMsg "contact.html" "Contact Me") }

/-- Body of add_new_post (main.py lines 201-219), before the admin_only
wrapping.  A validated submission commits a BlogPost stamped with the current
date and the current user id; a duplicate title makes the commit raise
IntegrityError, which this handler does not catch.  The current_user access
inside the body cannot see the anonymous identity when reached through the
guard; were it anonymous, the AttributeError would be caught by the decorator
into the same 403. -/
def add_new_post_body (today : String) (db : DB) (session : Option Nat)
    (form : Option CreatePostForm) : HResult :=
  match form with
  | some f =>
    if f.validate then
      match current_user db session with
      | some u =>
        if db.posts.any (fun p => p.title == f.title) then
          { db := db, session := session, resp := .err .integrityError }
        else
          let np : BlogPost :=
            { id := next_post_id db, author_id := u.id, title := f.title,
              subtitle := f.subtitle, date := today, body := f.body,
              img_url := f.img_url }
          { db := { db with posts := db.posts ++ [np] }, session := session,
            resp := .ok (.redirect "get_all_posts" none) }
      | none => forbiddenResult db session
    else
      { db := db, session := session, resp := .ok (.render "make-post.html") }
  | none =>
    { db := db, session := session, resp := .ok (.render "make-post.html") }

/-- add_new_post route: the body behind the admin_only guard. -/
def add_new_post (today : String) (db : DB) (session : Option Nat)
    (form : Option CreatePostForm) : HResult :=
  admin_only (fun _ => add_new_post_body today db session form)
    (forbiddenResult db session) (current_user db session) ()

/-- The in-place field assignments of edit_post (main.py lines 233-236):
exactly title, subtitle, img_url and body are overwritten. -/
def overwrite_editable (p : BlogPost) (f : CreatePostForm) : BlogPost :=
  { p with
    title := f.title,
    subtitle := f.subtitle,
    img_url := f.img_url,
    body := f.body }

/-- Body of edit_post (main.py lines 222-241), before the admin_only
wrapping.  The post is fetched with scalar_one (NoResultFound when absent);
a validated submission overwrites title, subtitle, img_url and body of that
row and commits; a title colliding with a different row makes the commit
raise IntegrityError, which this handler does not catch, and the transaction
is rolled back. -/
def edit_post_body (db : DB) (session : Option Nat) (post_id : Nat)
    (form : Option CreatePostForm) : HResult :=
  match find_post db post_id with
  | none => { db := db, session := session, resp := .err .noResultFound }
  | some _ =>
    match form with
    | some f =>
      if f.validate then
        if db.posts.any (fun q => q.title == f.title && q.id != post_id) then
          { db := db, session := session, resp := .err .integrityError }
        else
          let db' :=
            { db with posts := db.posts.map (fun p =>
                if p.id == post_id then overwrite_editable p f else p) }
          { db := db', session := session,
            resp := .ok (.redirect "show_post" none) }
      else
        { db := db, session := session,
          resp := .ok (.render "make-post.html") }
    | none =>
      { db := db, session := session, resp := .ok (.render "make-post.html") }

/-- edit_post route: the body behind the admin_only guard. -/
def edit_post (db : DB) (session : Option Nat) (post_id : Nat)
    (form : Option CreatePostForm) : HResult :=
  admin_only (fun _ => edit_post_body db session post_id form)
    (forbiddenResult db session) (current_user db session) ()

/-- Body of delete_post (main.py lines 244-250), before the admin_only
wrapping: fetch with scalar_one (NoResultFound when absent), delete the row,
commit, redirect to the listing. -/
def delete_post_body (db : DB) (session : Option Nat) (post_id : Nat) :
    HResult :=
  match find_post db post_id with
  | none => { db := db, session := session, resp := .err .noResultFound }
  | some _ =>
    { db := { db with posts := db.posts.filter (fun p => p.id != post_id) },
      session := session, resp := .ok (.redirect "get_all_posts" none) }

/-- delete_post route: the body behind the admin_only guard. -/
def delete_post (db : DB) (session : Option Nat) (post_id : Nat) : HResult :=
  admin_only (fun _ => delete_post_body db session post_id)
    (forbiddenResult db session) (current_user db session) ()

/-- Concrete stored hash used by the sample store. -/
def samplePw : HashString := generate_password_hash 0 "password1"

/-- The administrator row (id 1) of the sample store. -/
def sampleAdmin : User :=
  { id := 1, email := "admin@x.com", password := samplePw, name := "Admin" }

/-- A non-administrator row (id 2) of the sample store. -/
def sampleBob : User :=
  { id := 2, email := "bob@x.com", password := samplePw, name := "Bob" }

/-- First sample post. -/
def samplePost1 : BlogPost :=
  { id := 1, author_id := 1, title := "First", subtitle := "s1",
    date := "January 01, 2026", body := "b1", img_url := "http://img1" }

/-- Second sample post, whose title collides on an edit of the first. -/
def samplePost2 : BlogPost :=
  { id := 2, author_id := 1, title := "Second", subtitle := "s2",
    date := "January 02, 2026", body := "b2", img_url := "http://img2" }

/-- Sample store: two users, two posts, no comments. -/
def sampleDB : DB :=
  { users := [sampleAdmin, sampleBob], posts := [samplePost1, samplePost2],
    comments := [] }

/-- A validated edit submission with a fresh title. -/
def sampleEditForm : CreatePostForm :=
  { title := "Renamed", subtitle := "s", img_url := "http://x", body := "b" }

/-- A validated edit submission whose title equals the other sample post's
title. -/
def sampleCollidingForm : CreatePostForm :=
  { title := "Second", subtitle := "s", img_url := "http://x", body := "b" }

/-- First step of a concrete run from the empty store: register the first
account (which receives id 1). -/
def regStep : HResult :=
  register 0 { users := [], posts := [], comments := [] } none
    (some { email := "admin@x.com", password := "password1", name := "Admin" })

/-- Second step of the run: the registered (logged-in) user submits a
comment on post id 7, which does not exist in the store. -/
def commentStep : HResult :=
  show_post regStep.db regStep.session 7 (some { comment := "hi" })

/-- C1: for the create-post, edit-post and delete-post routes, an absent
identity and an identity whose id is not 1 are both rejected with the
forbidden result (store and session untouched) without the wrapped handler
running; the two rejections produce the same forbidden response; and the
identity with id 1 gets exactly the wrapped handler result. -/
theorem admin_guard_spec (db : DB) (s s' : Option Nat) (u : User)
    (pid : Nat) (pf : Option CreatePostForm) (today : String)
    (hanon : current_user db s = none)
    (hu : current_user db s' = some u) (hne : u.id ≠ 1) :
    (add_new_post today db s pf = forbiddenResult db s ∧
     edit_post db s pid pf = forbiddenResult db s ∧
     delete_post db s pid = forbiddenResult db s) ∧
    (add_new_post today db s' pf = forbiddenResult db s' ∧
     edit_post db s' pid pf = forbiddenResult db s' ∧
     delete_post db s' pid = forbiddenResult db s') ∧
    ((add_new_post today db s pf).resp = (add_new_post today db s' pf).resp ∧
     (edit_post db s pid pf).resp = (edit_post db s' pid pf).resp ∧
     (delete_post db s pid).resp = (delete_post db s' pid).resp) ∧
    (∀ (t : Option Nat) (v : User), current_user db t = some v → v.id = 1 →
      add_new_post today db t pf = add_new_post_body today db t pf ∧
      edit_post db t pid pf = edit_post_body db t pid pf ∧
      delete_post db t pid = delete_post_body db t pid) := by
  refine ⟨?_, ?_, ?_, ?_⟩
  · simp [add_new_post, edit_post, delete_post, admin_only, hanon]
  · simp [add_new_post, edit_post, delete_post, admin_only, hu, hne]
  · simp [add_new_post, edit_post, delete_post, admin_only, hanon, hu, hne,
      forbiddenResult]
  · intro t v hv hv1
    simp [add_new_post, edit_post, delete_post, admin_only, hv, hv1]

/-- C1 witness: on the sample store, the delete route is forbidden both for
the anonymous session and for the session of non-admin user id 2. -/
theorem admin_guard_spec_witness :
    delete_post sampleDB none 1 = forbiddenResult sampleDB none ∧
    delete_post sampleDB (some 2) 1 = forbiddenResult sampleDB (some 2) := by
  have h := admin_guard_spec sampleDB none (some 2) sampleBob 1 none "d"
    (by decide) (by decide) (by decide)
  exact ⟨h.1.2.2, h.2.1.2.2⟩

/-- C2: evidence against the referential-integrity claim.  Starting from the
empty store, registering one account and then submitting a comment on post
id 7 (which does not exist) commits a Comment row whose post_id references no
BlogPost; only afterwards does the post fetch raise NoResultFound. -/
theorem show_post_dangling_comment :
    commentStep.db.comments =
      [{ id := 1, author_id := 1, post_id := 7, text := "hi" }] ∧
    find_post commentStep.db 7 = none ∧
    commentStep.resp = .err .noResultFound := by
  decide

/-- C3: when no stored post has the requested id, a plain view request to
show_post, and an admin request to edit_post, both end in the NoResultFound
error and in no other outcome. -/
theorem missing_post_not_found (db : DB) (s : Option Nat) (pid : Nat)
    (pf : Option CreatePostForm) (u : User)
    (hmissing : find_post db pid = none)
    (hadmin : current_user db s = some u) (hid : u.id = 1) :
    (show_post db s pid none).resp = .err .noResultFound ∧
    (edit_post db s pid pf).resp = .err .noResultFound := by
  constructor
  · simp [show_post, hmissing]
  · simp [edit_post, admin_only, hadmin, hid, edit_post_body, hmissing]

/-- C3 witness: on the sample store, viewing and admin-editing post id 99
both raise NoResultFound. -/
theorem missing_post_not_found_witness :
    (show_post sampleDB (some 1) 99 none).resp = .err .noResultFound ∧
    (edit_post sampleDB (some 1) 99 none).resp = .err .noResultFound :=
  missing_post_not_found sampleDB (some 1) 99 none sampleAdmin (by decide)
    (by decide) rfl

/-- C4: a validated registration whose email already belongs to a stored
User leaves the store exactly as it was, leaves the session unchanged, and
redirects back to register with the email-taken message. -/
theorem register_duplicate_email (salt : Nat) (db : DB) (s : Option Nat)
    (f : RegisterForm) (u : User)
    (hv : f.validate = true) (hmem : u ∈ db.users)
    (hemail : u.email = f.email) :
    register salt db s (some f) =
      { db := db, session := s,
        resp := .ok (.redirect "register" (some "The Email you have entered has been taken, try to use a different Email!")) } := by
  have hdup : db.users.any (fun v => v.email == f.email) = true :=
    List.any_eq_true.mpr ⟨u, hmem, by simp [hemail]⟩
  simp [register, hv, hdup]

/-- C4 witness: registering again with the email of sample user id 2 changes
nothing and reports the email-taken outcome. -/
theorem register_duplicate_email_witness :
    register 5 sampleDB none
        (some { email := "bob@x.com", password := "abcdefgh", name := "B" }) =
      { db := sampleDB, session := none,
        resp := .ok (.redirect "register" (some "The Email you have entered has been taken, try to use a different Email!")) } :=
  register_duplicate_email 5 sampleDB none _ sampleBob (by decide) (by decide)
    rfl

/-- C5: a validated comment submission by the anonymous identity leaves the
store untouched and redirects to login with the prompt message; moreover any
comment submission at all under an anonymous session creates zero Comment
rows. -/
theorem anonymous_comment_no_write (db : DB) (s : Option Nat) (pid : Nat)
    (f : CommentForm)
    (hanon : current_user db s = none) (hv : f.validate = true) :
    (show_post db s pid (some f)).db = db ∧
    (show_post db s pid (some f)).resp =
      .ok (.redirect "login" (some "Please Login or Register to Submit your Comment!")) ∧
    (∀ g : CommentForm, (show_post db s pid (some g)).db.comments = db.comments) := by
  refine ⟨?_, ?_, ?_⟩
  · simp [show_post, hv, hanon]
  · simp [show_post, hv, hanon]
  · intro g
    by_cases hg : g.validate = true
    · simp [show_post, hg, hanon]
    · rw [Bool.not_eq_true] at hg
      cases hfp : find_post db pid <;> simp [show_post, hg, hfp]

/-- C5 witness: an anonymous comment on sample post 1 writes nothing and
redirects to login. -/
theorem anonymous_comment_no_write_witness :
    (show_post sampleDB none 1 (some { comment := "hey" })).db = sampleDB ∧
    (show_post sampleDB none 1 (some { comment := "hey" })).resp =
      .ok (.redirect "login" (some "Please Login or Register to Submit your Comment!")) := by
  have h := anonymous_comment_no_write sampleDB none 1 { comment := "hey" }
    rfl (by decide)
  exact ⟨h.1, h.2.1⟩

/-- C6 counterexample: the claim fails as stated.  On the sample store the
admin submits a validated edit of post 1 whose title equals the title of
post 2; the commit raises the uniqueness IntegrityError, which edit_post
does not catch, and no field of any post is overwritten. -/
theorem edit_post_title_collision :
    sampleCollidingForm.validate = true ∧
    find_post sampleDB 1 = some samplePost1 ∧
    current_user sampleDB (some 1) = some sampleAdmin ∧
    sampleAdmin.id = 1 ∧
    edit_post sampleDB (some 1) 1 (some sampleCollidingForm) =
      { db := sampleDB, session := some 1, resp := .err .integrityError } := by
  decide

/-- C6 (amended): for an existing post and a validated admin edit whose
title is not already the title of a different post, edit_post overwrites
exactly title, subtitle, img_url and body of that post, preserves every
post's id, date and author_id, leaves users and comments untouched, and
redirects to the post view. -/
theorem edit_post_frame (db : DB) (s : Option Nat) (pid : Nat)
    (f : CreatePostForm) (u : User) (post : BlogPost)
    (hadmin : current_user db s = some u) (hid : u.id = 1)
    (hfind : find_post db pid = some post) (hv : f.validate = true)
    (hfresh : ∀ q ∈ db.posts, q.title = f.title → q.id = pid) :
    (edit_post db s pid (some f)).db.users = db.users ∧
    (edit_post db s pid (some f)).db.comments = db.comments ∧
    (edit_post db s pid (some f)).db.posts =
      db.posts.map (fun p => if p.id == pid then overwrite_editable p f else p) ∧
    List.map (fun p => (p.id, p.date, p.author_id))
        (edit_post db s pid (some f)).db.posts =
      List.map (fun p => (p.id, p.date, p.author_id)) db.posts ∧
    (edit_post db s pid (some f)).resp = .ok (.redirect "show_post" none) := by
  have hno : db.posts.any (fun q => q.title == f.title && q.id != pid) = false := by
    rw [List.any_eq_false]
    intro q hq
    simp only [Bool.and_eq_true, beq_iff_eq, bne_iff_ne, not_and]
    intro ht hne
    exact hne (hfresh q hq ht)
  have hmain : edit_post db s pid (some f) =
      { db :=
          { db with
            posts := db.posts.map
              (fun p => if p.id == pid then overwrite_editable p f else p) },
        session := s,
        resp := .ok (.redirect "show_post" none) } := by
    simp [edit_post, admin_only, hadmin, hid, edit_post_body, hfind, hv, hno]
  refine ⟨by rw [hmain], by rw [hmain], by rw [hmain], ?_, by rw [hmain]⟩
  rw [hmain]
  simp only [List.map_map]
  apply List.map_congr_left
  intro p hp
  by_cases hpid : p.id = pid
  · simp [hpid, overwrite_editable]
  · simp [hpid]

/-- C6 witness: the admin edit of sample post 1 to a fresh title performs
the overwrite and redirects to the post view. -/
theorem edit_post_frame_witness :
    (edit_post sampleDB (some 1) 1 (some sampleEditForm)).db.posts =
      sampleDB.posts.map
        (fun p => if p.id == 1 then overwrite_editable p sampleEditForm else p) ∧
    (edit_post sampleDB (some 1) 1 (some sampleEditForm)).resp =
      .ok (.redirect "show_post" none) := by
  have h := edit_post_frame sampleDB (some 1) 1 sampleEditForm sampleAdmin
    samplePost1 (by decide) rfl (by decide) (by decide) (by decide)
  exact ⟨h.2.2.1, h.2.2.2.2⟩

/-- C7: a validated login whose email resolves to a stored user but whose
password does not verify against the stored hash leaves the store and the
session exactly as they were and redirects back to login with the
wrong-password message. -/
theorem login_wrong_password (db : DB) (s : Option Nat) (f : LoginForm)
    (u : User)
    (hv : f.validate = true)
    (hfind : find_user_by_email db f.email = some u)
    (hpw : check_password_hash u.password f.password = false) :
    login db s (some f) =
      { db := db, session := s,
        resp := .ok (.redirect "login" (some "Sorry, Wrong Password, Try to use a different Password!")) } := by
  simp [login, hv, hfind, hpw]

/-- C7 witness: logging in as the sample user id 2 with a wrong password
keeps the anonymous session and flashes the wrong-password message. -/
theorem login_wrong_password_witness :
    login sampleDB none
        (some { email := "bob@x.com", password := "wrongpass" }) =
      { db := sampleDB, session := none,
        resp := .ok (.redirect "login" (some "Sorry, Wrong Password, Try to use a different Password!")) } :=
  login_wrong_password sampleDB none _ sampleBob (by decide) (by decide)
    (by decide)

/-- C8: for a validated contact submission, an authentication failure of the
mail collaborator is caught and answered with the success page, while any
other mail failure is not caught and propagates out of the handler. -/
theorem contact_auth_failure_as_success (db : DB) (s : Option Nat)
    (f : ContactForm) (hv : f.validate = true) :
    contact db s (some f) .authFailure =
      { db := db, session := s,
        resp := .ok (.renderMsg "contact.html" "Successfully Send Your Message") } ∧
    contact db s (some f) .otherFailure =
      { db := db, session := s, resp := .err .smtpError } := by
  constructor <;> simp [contact, hv]

/-- C8 witness: a concrete validated contact submission under an
authentication failure renders the success page. -/
theorem contact_auth_failure_as_success_witness :
    contact sampleDB none
        (some { name := "N", email := "n@x.com", phone := "1", message := "m" })
        .authFailure =
      { db := sampleDB, session := none,
        resp := .ok (.renderMsg "contact.html" "Successfully Send Your Message") } :=
  (contact_auth_failure_as_success sampleDB none _ (by decide)).1

/-- C9: when the mail send completes without raising, the contact handler
falls off the end of its conditional and returns None (the framework turns
that into a server error, not a rendered page); only the
authentication-failure path and the non-submission path return a rendered
response. -/
theorem contact_sent_returns_none (db : DB) (s : Option Nat)
    (f : ContactForm) (hv : f.validate = true) :
    contact db s (some f) .sent =
      { db := db, session := s, resp := .ok .noneResponse } ∧
    (∀ m : MailOutcome, (contact db s none m).resp =
      .ok (.renderMsg "contact.html" "Contact Me")) := by
  constructor
  · simp [contact, hv]
  · intro m
    simp [contact]

/-- C9 witness: a concrete validated contact submission whose send succeeds
yields the None response. -/
theorem contact_sent_returns_none_witness :
    contact sampleDB none
        (some { name := "N", email := "c@x.com", phone := "2", message := "w" })
        .sent =
      { db := sampleDB, session := none, resp := .ok .noneResponse } :=
  (contact_sent_returns_none sampleDB none _ (by decide)).1

/-- C10: the verifier accepts the hash of a plaintext against that same
plaintext and rejects it against any other plaintext; and the User row a
successful registration persists carries the hash of the submitted password
in its password column, never the submitted plaintext. -/
theorem password_hash_contract (salt : Nat) (p q : String) (hne : q ≠ p)
    (db : DB) (s : Option Nat) (f : RegisterForm)
    (hv : f.validate = true)
    (hfresh : db.users.any (fun u => u.email == f.email) = false) :
    check_password_hash (generate_password_hash salt p) p = true ∧
    check_password_hash (generate_password_hash salt p) q = false ∧
    (register salt db s (some f)).db.users =
      db.users ++ [{ id := next_user_id db, email := f.email,
                     password := generate_password_hash salt f.password,
                     name := f.name }] := by
  refine ⟨?_, ?_, ?_⟩
  · simp [check_password_hash, generate_password_hash]
  · have hb : (p == q) = false := beq_eq_false_iff_ne.mpr (fun h => hne h.symm)
    simp [check_password_hash, generate_password_hash, hb]
  · simp [register, hv, hfresh]

/-- C10 witness: concrete accept and reject instances of the verifier, and
the concrete row a fresh registration appends, whose password column is the
hash of the submitted password. -/
theorem password_hash_contract_witness :
    check_password_hash (generate_password_hash 0 "password1") "password1" = true ∧
    check_password_hash (generate_password_hash 0 "password1") "different" = false ∧
    (register 0 sampleDB none
        (some { email := "new@x.com", password := "abcdefgh", name := "N" })).db.users =
      sampleDB.users ++ [{ id := next_user_id sampleDB, email := "new@x.com",
                           password := generate_password_hash 0 "abcdefgh",
                           name := "N" }] :=
  password_hash_contract 0 "password1" "different" (by decide) sampleDB none _
    (by decide) (by decide)

end Blog
